import Mathlib

/-!
Verification of the clipboard-stream core against its specification.

The Rust sources are shallowly embedded: the platform clipboard binding
(`clipboard_win`), the filesystem, the image codec and the lossy UTF-8
decoder are modelled as an explicit environment `ClipEnv`, so that every
function of the repository becomes a pure, executable Lean function of the
observer configuration and that environment.
-/

set_option maxRecDepth 4000

/-- A filesystem path, modelled by its display name and the extension the
OS reports for it (`Path::extension` in Rust, `none` when absent). -/
structure FsPath where
  name : String
  extension : Option String
deriving DecidableEq, Repr

/-- Rust `ClipboardImage` from `src/body.rs`: the PNG-encoded bytes and the
optional originating file path.  The source structure has exactly these
two fields. -/
structure ClipboardImage where
  bytes : List Nat
  path : Option FsPath
deriving DecidableEq, Repr

/-- Rust `ClipboardImage::has_path` from `src/body.rs`. -/
def ClipboardImage.has_path (i : ClipboardImage) : Bool :=
  i.path.isSome

/-- Rust `Body` from `src/body.rs`: the single chosen interpretation of one
clipboard change. -/
inductive Body where
  | Html (text : String)
  | PlainText (text : String)
  | RichText (text : String)
  | Image (image : ClipboardImage)
  | FileList (paths : List FsPath)
  | Custom (name : String) (data : List Nat)
deriving DecidableEq, Repr

/-- Rust `ClipboardError` from `src/error.rs`. -/
inductive ClipboardError where
  | InitializationError (msg : String)
  | MonitorFailed (msg : String)
  | TryRecvError (msg : String)
  | ReadError (msg : String)
  | UnknownDataType
deriving DecidableEq, Repr

/-- Rust `ClipboardResult` from `src/error.rs` (the `Arc` wrapper carries no
observable content and is dropped in the embedding). -/
abbrev ClipboardResultM := Except ClipboardError Body

deriving instance DecidableEq for Except

/-- Rust `ImageMimeType` from `src/mime_type.rs`. -/
inductive ImageMimeType where
  | Png
  | Jpeg
  | Gif
  | Webp
  | Bmp
  | Svg
  | Ico
  | Unknown (original : String)
deriving DecidableEq, Repr

/-- The `FromStr` implementation for `ImageMimeType` in `src/mime_type.rs`;
`none` models `Err(ParseImageMimeTypeError)`. -/
def ImageMimeType.from_str (s : String) : Option ImageMimeType :=
  if s = "image/png" then some .Png
  else if s = "image/jpeg" ∨ s = "image/jpg" then some .Jpeg
  else if s = "image/gif" then some .Gif
  else if s = "image/webp" then some .Webp
  else if s = "image/bmp" then some .Bmp
  else if s = "image/svg+xml" then some .Svg
  else if s = "image/x-icon" ∨ s = "image/vnd.microsoft.icon" then some .Ico
  else none

/-- Rust `ImageMimeType::from_name` from `src/mime_type.rs`:
`s.parse().unwrap_or_else(|_| Self::Unknown(s.to_string()))`. -/
def ImageMimeType.from_name (s : String) : ImageMimeType :=
  (ImageMimeType.from_str s).getD (.Unknown s)

/-- The `Display` implementation for `ImageMimeType` in `src/mime_type.rs`. -/
def ImageMimeType.display : ImageMimeType → String
  | .Png => "image/png"
  | .Jpeg => "image/jpeg"
  | .Gif => "image/gif"
  | .Webp => "image/webp"
  | .Bmp => "image/bmp"
  | .Svg => "image/svg+xml"
  | .Ico => "image/vnd.microsoft.icon"
  | .Unknown original => original

/-- Rust `ImageMimeType::from_ext` from `src/mime_type.rs`. -/
def ImageMimeType.from_ext (ext : String) : Option ImageMimeType :=
  if ext = "png" then some .Png
  else if ext = "jpg" ∨ ext = "jpeg" then some .Jpeg
  else if ext = "gif" then some .Gif
  else if ext = "bmp" then some .Bmp
  else if ext = "webp" then some .Webp
  else if ext = "svg" then some .Svg
  else if ext = "ico" then some .Ico
  else none

/-- Rust `IMAGE_FORMATS` from `src/image.rs`. -/
def IMAGE_FORMATS : List String :=
  ["png", "jpg", "jpeg", "gif", "bmp", "webp", "svg", "ico"]

/-- Rust `file_is_image` from `src/image.rs`:
`path.extension().is_some_and(|e| IMAGE_FORMATS.contains(..))`. -/
def file_is_image (p : FsPath) : Bool :=
  p.extension.any (fun e => IMAGE_FORMATS.contains e)

/-- The Windows clipboard format ids used by the source
(`formats::CF_DIBV5`, `formats::CF_DIB`, `formats::CF_HDROP`, the id
behind `formats::FileList`). -/
def CF_DIB : Nat := 8

/-- Rust `formats::CF_DIBV5`. -/
def CF_DIBV5 : Nat := 17

/-- Rust `formats::CF_HDROP`, the id `formats::FileList` converts into. -/
def CF_HDROP : Nat := 15

/-- The ambient world one classification attempt runs against: the native
clipboard provider (`clipboard_win`), the external image codec, the
filesystem, and the standard-library lossy UTF-8 decoding.  Each field
models one external call made by `src/driver/observer.rs`. -/
structure ClipEnv where
  /-- Rust `Clipboard::new_attempts(10)` succeeded. -/
  openOk : Bool
  /-- Error message when opening the clipboard failed. -/
  openErr : String
  /-- Rust `clipboard_win::size(format_id)`: the advertised size of a format,
  `none` when the format is absent. -/
  size : Nat → Option Nat
  /-- Rust `clipboard_win::get(formats::RawData(format_id)).ok()`. -/
  getRaw : Nat → Option (List Nat)
  /-- Rust `formats::FileList.read_clipboard(..)` succeeded. -/
  readFileListOk : Bool
  /-- The paths `formats::FileList.read_clipboard` fills in on success. -/
  fileList : List FsPath
  /-- Rust `convert_dib_to_png` from `src/image.rs` (external image codec). -/
  convertDib : List Nat → Option (List Nat)
  /-- Rust `html_parser.read_clipboard(&mut text)`: the decoded HTML fragment,
  `none` on failure. -/
  readHtml : Option String
  /-- Rust `formats::Unicode.read_clipboard(&mut text)`: the decoded plain
  text, `none` on failure. -/
  readUnicode : Option String
  /-- Rust `path.metadata().len()`: the on-disk size, `none` when `metadata()`
  fails. -/
  fsLen : FsPath → Option Nat
  /-- Rust `std::fs::read(path).ok()`. -/
  fsRead : FsPath → Option (List Nat)
  /-- Rust `String::from_utf8_lossy` (standard library, modelled abstractly). -/
  utf8Lossy : List Nat → String

/-- Rust `Option::is_none_or` specialised to the size checks of the source. -/
def isNoneOr (o : Option Nat) (p : Nat → Bool) : Bool :=
  match o with
  | none => true
  | some m => p m

/-- Rust `extract_clipboard_format` from `src/driver/observer.rs`: check the
format is available at all, then that its advertised size is within the
allowed range (`max > size`), then read the data. -/
def extract_clipboard_format (env : ClipEnv) (format_id : Nat)
    (max_size : Option Nat) : Option (List Nat) :=
  match env.size format_id with
  | none => none
  | some size =>
    if isNoneOr max_size (fun max => size < max) then env.getRaw format_id
    else none

/-- The `WinObserver` fields that classification reads
(`src/driver/observer.rs`).  `custom_formats` is the `HashMap` of
registered custom formats, listed here in the iteration order of the map —
which for a Rust `HashMap` is an unspecified permutation of the inserted
entries, not the insertion order. -/
structure WinObserver where
  html_format : Bool
  png_format : Option Nat
  rtf_format : Option Nat
  custom_formats : List (String × Nat)
  max_image_bytes : Option Nat
  max_bytes : Option Nat
deriving DecidableEq, Repr

/-- Rust `WinObserver::new` from `src/driver/observer.rs`.  `register` models
`clipboard_win::register_format`; `hashOrder` models the unspecified
iteration order of the `HashMap` the registered entries are collected
into (constrained to permutations in the theorems); the `max_image_bytes`
defaulting mirrors the source exactly. -/
def WinObserver.new (register : String → Option Nat) (htmlAvail : Bool)
    (pngId rtfId : Option Nat) (custom_formats : List String)
    (hashOrder : List (String × Nat) → List (String × Nat))
    (max_image_bytes max_bytes : Option Nat) : WinObserver :=
  { html_format := htmlAvail
    png_format := pngId
    rtf_format := rtfId
    custom_formats :=
      hashOrder (custom_formats.filterMap
        (fun name => (register name).map (fun id => (name, id))))
    max_image_bytes :=
      if max_image_bytes.isNone && max_bytes.isSome then max_bytes
      else max_image_bytes
    max_bytes := max_bytes }

/-- Rust `WinObserver::extract_image_bytes` from `src/driver/observer.rs`:
prefer the registered PNG format, else decode CF_DIBV5, else CF_DIB,
each read subject to `max_image_bytes`. -/
def WinObserver.extract_image_bytes (o : WinObserver) (env : ClipEnv) :
    Option (List Nat) :=
  match o.png_format.bind
      (fun code => extract_clipboard_format env code o.max_image_bytes) with
  | some png_bytes => some png_bytes
  | none =>
    match (extract_clipboard_format env CF_DIBV5 o.max_image_bytes).bind
        env.convertDib with
    | some png_bytes => some png_bytes
    | none =>
      (extract_clipboard_format env CF_DIB o.max_image_bytes).bind
        env.convertDib

/-- Rust `WinObserver::extract_files_list` from `src/driver/observer.rs`:
check the advertised size of the file-list format against the ceiling,
then read the list. -/
def extract_files_list (env : ClipEnv) (max_size : Option Nat) :
    Option (List FsPath) :=
  match env.size CF_HDROP with
  | none => none
  | some size =>
    if isNoneOr max_size (fun max => size < max) then
      if env.readFileListOk then some env.fileList else none
    else none

/-- The guard of the single-file image promotion in
`WinObserver::get_clipboard_content`: the entry is an image by extension
and, when a ceiling is set, `metadata()` succeeds and the on-disk size is
strictly below it. -/
def promotionGuard (max_bytes : Option Nat) (env : ClipEnv)
    (path : FsPath) : Bool :=
  file_is_image path &&
    isNoneOr max_bytes (fun max => (env.fsLen path).any (fun len => len < max))

/-- Rust `WinObserver::get_clipboard_content` from `src/driver/observer.rs`,
embedded branch for branch: open the clipboard, try the registered custom
formats in the iteration order of the map, then an image payload (attaching a
single-entry file list as its path), then the file list (promoting a lone
readable image file within the ceiling to an `Image`), then HTML, then
rich text, then Unicode text, and otherwise fail with
`UnknownDataType`. -/
def WinObserver.get_clipboard_content (o : WinObserver) (env : ClipEnv) :
    ClipboardResultM :=
  if env.openOk then
    match o.custom_formats.findSome?
        (fun nameId =>
          (extract_clipboard_format env nameId.2 o.max_bytes).map
            (fun bytes => Body.Custom nameId.1 bytes)) with
    | some body => .ok body
    | none =>
      match o.extract_image_bytes env with
      | some image_bytes =>
        let image_path :=
          match extract_files_list env o.max_bytes with
          | some files_list =>
            if files_list.length = 1 then files_list.head? else none
          | none => none
        .ok (.Image ⟨image_bytes, image_path⟩)
      | none =>
        match extract_files_list env o.max_bytes with
        | some files_list =>
          match files_list with
          | [path] =>
            if promotionGuard o.max_bytes env path then
              match env.fsRead path with
              | some bytes => .ok (.Image ⟨bytes, some path⟩)
              | none => .ok (.FileList [path])
            else .ok (.FileList [path])
          | _ => .ok (.FileList files_list)
        | none =>
          match (if o.html_format then env.readHtml else none) with
          | some text => .ok (.Html text)
          | none =>
            match o.rtf_format.bind env.getRaw with
            | some bytes => .ok (.RichText (env.utf8Lossy bytes))
            | none =>
              match env.readUnicode with
              | some text => .ok (.PlainText text)
              | none => .error .UnknownDataType
  else .error (.ReadError env.openErr)

/-- First-success choice on `Option`, used to spell out the
short-circuiting tiers. -/
def orO (a b : Option Body) : Option Body :=
  match a with
  | some x => some x
  | none => b

/-- Spec tier 1: the first registered custom format (in the order the
classifier iterates them) that is present and within the ceiling. -/
def tierCustom (o : WinObserver) (env : ClipEnv) : Option Body :=
  o.custom_formats.findSome?
    (fun nameId =>
      (extract_clipboard_format env nameId.2 o.max_bytes).map
        (fun bytes => Body.Custom nameId.1 bytes))

/-- The path attached to a clipboard image: the sole entry of a
single-entry file list, when one is exposed alongside the image. -/
def attachedImagePath (o : WinObserver) (env : ClipEnv) : Option FsPath :=
  match extract_files_list env o.max_bytes with
  | some files_list =>
    if files_list.length = 1 then files_list.head? else none
  | none => none

/-- Spec tier 2: an extracted image payload, enriched with the attached
path. -/
def tierImage (o : WinObserver) (env : ClipEnv) : Option Body :=
  (o.extract_image_bytes env).map
    (fun bytes => Body.Image ⟨bytes, attachedImagePath o env⟩)

/-- The single-file image promotion, worded as in §4.2 step 4: a
one-entry list whose entry has a recognized image extension, an on-disk
size within the ceiling, and readable bytes becomes a single-path
`Image`; every other list is returned verbatim. -/
def promoteSpec (o : WinObserver) (env : ClipEnv) (files_list : List FsPath) :
    Body :=
  match files_list with
  | [path] =>
    match env.fsRead path with
    | some bytes =>
      if promotionGuard o.max_bytes env path then .Image ⟨bytes, some path⟩
      else .FileList files_list
    | none => .FileList files_list
  | _ => .FileList files_list

/-- Spec tier 3: the file list, after the single-file image promotion. -/
def tierFileList (o : WinObserver) (env : ClipEnv) : Option Body :=
  (extract_files_list env o.max_bytes).map (promoteSpec o env)

/-- Spec tier 4, the text fallback tried in order: HTML fragment, then
rich text, then Unicode plain text. -/
def tierText (o : WinObserver) (env : ClipEnv) : Option Body :=
  orO ((if o.html_format then env.readHtml else none).map Body.Html)
    (orO ((o.rtf_format.bind env.getRaw).map
        (fun bytes => Body.RichText (env.utf8Lossy bytes)))
      (env.readUnicode.map Body.PlainText))

/-- The Classifier as the spec words it: strict short-circuiting priority
over the four tiers, failing with `UnknownDataType` when no tier yields
content. -/
def classifierSpec (o : WinObserver) (env : ClipEnv) : ClipboardResultM :=
  match orO (tierCustom o env)
      (orO (tierImage o env) (orO (tierFileList o env) (tierText o env))) with
  | some body => .ok body
  | none => .error .UnknownDataType

/-- The outcome `monitor.try_recv()` reports to one iteration of the
observe loop: a change, no change, or an unrecoverable monitor error. -/
inductive MonitorEvent where
  | changed
  | noChange
  | fatal (msg : String)
deriving DecidableEq, Repr

/-- The two control states of the observe loop (§4.3): still waiting for
changes, or exited. -/
inductive LoopState where
  | Waiting
  | Stopped
deriving DecidableEq, Repr

/-- What one loop iteration does: the next control state and the results
broadcast during the iteration. -/
structure LoopStep where
  next : LoopState
  sent : List ClipboardResultM
deriving DecidableEq, Repr

/-- One iteration of `WinObserver::observe` from `src/driver/observer.rs`:
with the stop flag set the loop exits at once; otherwise a detected
change broadcasts the classification outcome (success or failure) and
re-loops, no change sleeps and re-loops, and a monitor error broadcasts
`MonitorFailed` once and breaks.  `classify` is the outcome of
`get_clipboard_content` for the event. -/
def observeStep (stopFlag : Bool) (ev : MonitorEvent)
    (classify : ClipboardResultM) : LoopState → LoopStep
  | .Stopped => ⟨.Stopped, []⟩
  | .Waiting =>
    if stopFlag then ⟨.Stopped, []⟩
    else
      match ev with
      | .changed => ⟨.Waiting, [classify]⟩
      | .noChange => ⟨.Waiting, []⟩
      | .fatal msg => ⟨.Stopped, [.error (.MonitorFailed msg)]⟩

/-- A run of the observe loop over a sequence of monitor events under a
fixed stop-flag value, collecting every broadcast made. -/
def observeRun (stopFlag : Bool)
    (evs : List (MonitorEvent × ClipboardResultM)) (st : LoopState) :
    LoopState × List ClipboardResultM :=
  match evs with
  | [] => (st, [])
  | (ev, classify) :: rest =>
    let step := observeStep stopFlag ev classify st
    let tail := observeRun stopFlag rest step.next
    (tail.1, step.sent ++ tail.2)

/-- The `Driver` state from `src/driver.rs`: the shared stop flag and the
join handle of the background thread (present until taken by teardown). -/
structure DriverModel where
  stop : Bool
  handle : Option Unit
deriving DecidableEq, Repr

/-- Rust `Drop for Driver` from `src/driver.rs`: store `true` into the stop
flag, take the join handle and join the background thread
synchronously. -/
def driverDrop (_d : DriverModel) : DriverModel :=
  { stop := true, handle := none }

/-- What the spawned thread of the Windows `Driver::new` does, as a
function of the outcome of `clipboard_win::Monitor::new()`: report that
outcome over the rendezvous channel, and run the observe loop exactly
when it succeeded. -/
structure ThreadRun where
  handoff : Except String Unit
  ranObserver : Bool
deriving DecidableEq, Repr

/-- The body of the thread spawned by `Driver::new` (Windows) in
`src/driver.rs`. -/
def winThreadBody (minit : Except String Unit) : ThreadRun :=
  match minit with
  | .ok _ => ⟨.ok (), true⟩
  | .error e => ⟨.error e, false⟩

/-- Rust `Driver::new` (Windows) from `src/driver.rs`: block on the rendezvous
channel until the spawned thread reports the monitor-construction
outcome; wrap a live driver on success, return `InitializationError`
with the underlying message on failure. -/
def driverNew (minit : Except String Unit) :
    Except ClipboardError DriverModel :=
  match (winThreadBody minit).handoff with
  | .ok _ => .ok { stop := false, handle := some () }
  | .error e => .error (.InitializationError e)

/-- A subscriber id (`StreamId` from `src/stream.rs`). -/
abbrev StreamIdM := Nat

/-- One outbound channel endpoint as `BodySenders` sees it: the queued
results, the spare-capacity bound, and whether the receiving end is
gone. -/
structure ChanModel where
  queued : List ClipboardResultM
  capacity : Nat
  closed : Bool
deriving DecidableEq, Repr

/-- Rust `Sender::try_send` of the futures mpsc channel: fails (and leaves the
channel unchanged) when the channel is closed or full, otherwise
enqueues the result. -/
def trySendChan (c : ChanModel) (r : ClipboardResultM) : ChanModel × Bool :=
  if c.closed then (c, false)
  else if c.capacity ≤ c.queued.length then (c, false)
  else ({ c with queued := c.queued ++ [r] }, true)

/-- Rust `BodySenders::send_all` from `src/body.rs`: under the single mutex,
attempt a non-blocking send of the result to every registered channel in
turn; a failed send is logged and skipped, and no registration is
touched. -/
def send_all (senders : List (StreamIdM × ChanModel)) (r : ClipboardResultM) :
    List (StreamIdM × ChanModel) :=
  senders.map (fun entry => (entry.1, (trySendChan entry.2 r).1))

/-- Rust `BodySenders::register` from `src/body.rs` (`HashMap::insert`,
modelled on the association list: replace the entry when the id is
present, append otherwise). -/
def registerSender (senders : List (StreamIdM × ChanModel)) (id : StreamIdM)
    (c : ChanModel) : List (StreamIdM × ChanModel) :=
  if senders.any (fun entry => entry.1 = id) then
    senders.map (fun entry => if entry.1 = id then (id, c) else entry)
  else senders ++ [(id, c)]

/-- Rust `BodySenders::unregister` from `src/body.rs` (`HashMap::remove`). -/
def unregisterSender (senders : List (StreamIdM × ChanModel))
    (id : StreamIdM) : List (StreamIdM × ChanModel) :=
  senders.filter (fun entry => entry.1 ≠ id)

/-- On an opened session the source classifier agrees with the tiered
spec-side classifier (shared helper). -/
theorem getContent_eq_spec (o : WinObserver) (env : ClipEnv)
    (h : env.openOk = true) :
    o.get_clipboard_content env = classifierSpec o env := by
  unfold WinObserver.get_clipboard_content classifierSpec tierCustom tierImage
    tierFileList tierText attachedImagePath promoteSpec orO
  simp only [h, if_true]
  split <;> try rfl
  cases hi : o.extract_image_bytes env with
  | some image_bytes => simp
  | none =>
    simp only [Option.map_none']
    cases hf : extract_files_list env o.max_bytes with
    | some files_list =>
      simp only [Option.map_some']
      match files_list with
      | [] => rfl
      | [path] =>
        cases hg : promotionGuard o.max_bytes env path <;>
          cases hr : env.fsRead path <;> simp [hg, hr]
      | p :: q :: rest => rfl
    | none =>
      simp only [Option.map_none']
      cases hh : (if o.html_format then env.readHtml else none) with
      | some text => simp
      | none =>
        simp only [Option.map_none']
        cases hr : o.rtf_format.bind env.getRaw with
        | some bytes => simp
        | none =>
          simp only [Option.map_none']
          cases hu : env.readUnicode <;> simp

/-- A provider snapshot exposing nothing at all, with the session opening
successfully. -/
def emptyEnv : ClipEnv :=
  { openOk := true
    openErr := ""
    size := fun _ => none
    getRaw := fun _ => none
    readFileListOk := false
    fileList := []
    convertDib := fun _ => none
    readHtml := none
    readUnicode := none
    fsLen := fun _ => none
    fsRead := fun _ => none
    utf8Lossy := fun _ => "" }

/-- An observer with no custom formats, no registered PNG/RTF formats and
no ceilings. -/
def emptyObserver : WinObserver :=
  { html_format := false
    png_format := none
    rtf_format := none
    custom_formats := []
    max_image_bytes := none
    max_bytes := none }

/-- A snapshot exposing only Unicode plain text. -/
def textEnv : ClipEnv :=
  { emptyEnv with readUnicode := some "hello" }

/-- C1: for every opened clipboard session, the Classifier selects exactly
one `Body` by strict short-circuiting priority — registered custom
formats first, then image, then file list, then the text fallback (HTML
fragment, then rich text, then Unicode plain text) — the first tier that
yields content wins, and when no tier produces a result it fails with
`UnknownDataType`. -/
theorem c1_priority_order (o : WinObserver) (env : ClipEnv)
    (h : env.openOk = true) :
    o.get_clipboard_content env = classifierSpec o env :=
  getContent_eq_spec o env h

/-- Witness for C1 at a concrete snapshot exposing only plain text. -/
theorem c1_priority_order_witness :
    textEnv.openOk = true ∧
      emptyObserver.get_clipboard_content textEnv =
        classifierSpec emptyObserver textEnv :=
  ⟨rfl, c1_priority_order emptyObserver textEnv rfl⟩

/-- C4: with no image payload extracted and a file list present, a
one-entry list whose entry has a recognized image extension, an on-disk
size within the ceiling and readable bytes is re-classified as a
single-path `Image` with the bytes read from disk; in every other case —
including any multi-entry list, regardless of extensions — the file list
is returned verbatim. -/
theorem c4_file_list_promotion (o : WinObserver) (env : ClipEnv)
    (hopen : env.openOk = true) (hc : tierCustom o env = none)
    (hi : o.extract_image_bytes env = none) (fl : List FsPath)
    (hf : extract_files_list env o.max_bytes = some fl) :
    (∀ p bytes, fl = [p] → file_is_image p = true →
      isNoneOr o.max_bytes
        (fun max => (env.fsLen p).any (fun len => len < max)) = true →
      env.fsRead p = some bytes →
      o.get_clipboard_content env = .ok (.Image ⟨bytes, some p⟩)) ∧
    ((∀ p, fl = [p] →
        ¬(promotionGuard o.max_bytes env p = true ∧
          (env.fsRead p).isSome = true)) →
      o.get_clipboard_content env = .ok (.FileList fl)) ∧
    (2 ≤ fl.length → o.get_clipboard_content env = .ok (.FileList fl)) := by
  have hbase : o.get_clipboard_content env = .ok (promoteSpec o env fl) := by
    rw [getContent_eq_spec o env hopen]
    unfold classifierSpec tierImage tierFileList
    rw [hc, hi, hf]
    rfl
  refine ⟨?_, ?_, ?_⟩
  · rintro p bytes rfl himg hsize hread
    rw [hbase]
    simp only [promoteSpec]
    rw [hread]
    simp [promotionGuard, himg, hsize]
  · intro hno
    rw [hbase]
    match fl, hf with
    | [], _ => rfl
    | [p], hf =>
      have hp := hno p rfl
      simp only [promoteSpec]
      cases hread : env.fsRead p with
      | none => rfl
      | some bytes =>
        have hg : promotionGuard o.max_bytes env p = false := by
          cases hgc : promotionGuard o.max_bytes env p with
          | false => rfl
          | true => exact absurd ⟨hgc, by rw [hread]; rfl⟩ hp
        simp [hg]
    | p :: q :: rest, _ => rfl
  · intro hlen
    rw [hbase]
    match fl, hlen with
    | p :: q :: rest, _ => rfl

/-- A concrete image file path used by the witnesses. -/
def photoPath : FsPath := ⟨"C:/pics/photo.png", some "png"⟩

/-- A snapshot exposing only a one-entry file list whose entry is a
readable on-disk image of size 100. -/
def c4Env : ClipEnv :=
  { emptyEnv with
      size := fun id => if id = CF_HDROP then some 5 else none
      readFileListOk := true
      fileList := [photoPath]
      fsLen := fun p => if p = photoPath then some 100 else none
      fsRead := fun p => if p = photoPath then some [1, 2] else none }

/-- Witness for C4: the lone image file is promoted to a single-path
`Image` with the bytes read from disk. -/
theorem c4_file_list_promotion_witness :
    c4Env.openOk = true ∧ tierCustom emptyObserver c4Env = none ∧
      emptyObserver.extract_image_bytes c4Env = none ∧
      extract_files_list c4Env emptyObserver.max_bytes = some [photoPath] ∧
      emptyObserver.get_clipboard_content c4Env =
        .ok (.Image ⟨[1, 2], some photoPath⟩) := by
  refine ⟨rfl, by decide, by decide, by decide, ?_⟩
  exact (c4_file_list_promotion emptyObserver c4Env rfl (by decide) (by decide)
    [photoPath] (by decide)).1 photoPath [1, 2] rfl (by decide) rfl (by decide)

/-- An observer with a registered rich-text format (id 77) and a byte
ceiling of 10. -/
def rtfObserver : WinObserver :=
  { emptyObserver with
      rtf_format := some 77
      max_image_bytes := some 10
      max_bytes := some 10 }

/-- A snapshot exposing only the rich-text format, with an advertised
size of 1000 — far above the ceiling of 10. -/
def rtfEnvOver : ClipEnv :=
  { emptyEnv with
      size := fun id => if id = 77 then some 1000 else none
      getRaw := fun id => if id = 77 then some [72, 105] else none
      utf8Lossy := fun _ => "Hi" }

/-- Counterexample to C5 as stated: the rich-text format advertises
1000 bytes against a ceiling of 10, yet the Classifier does not treat it
as absent — the text-fallback read is not size-checked, the payload is
read in full and returned as `RichText`. -/
theorem c5_counterexample :
    rtfObserver.max_bytes = some 10 ∧ rtfEnvOver.size 77 = some 1000 ∧
      rtfObserver.rtf_format = some 77 ∧
      rtfObserver.get_clipboard_content rtfEnvOver = .ok (.RichText "Hi") ∧
      rtfObserver.get_clipboard_content rtfEnvOver ≠
        .error .UnknownDataType := by
  refine ⟨rfl, by decide, rfl, by decide, by decide⟩

/-- C5 amended: every format read through `extract_clipboard_format`
(the custom formats and the image formats) and the file list is treated
as absent — skipped without any error — when its advertised size meets
or exceeds the ceiling, and a skipped custom format falls through to the
next registered one; the text-fallback reads (HTML, rich text, Unicode)
are not size-checked. -/
theorem c5_ceiling_skip (env : ClipEnv) (id max size : Nat)
    (hsize : env.size id = some size) (hover : max ≤ size) :
    extract_clipboard_format env id (some max) = none ∧
    (∀ (name : String) (rest : List (String × Nat)),
      ((name, id) :: rest).findSome?
          (fun nameId =>
            (extract_clipboard_format env nameId.2 (some max)).map
              (fun bytes => Body.Custom nameId.1 bytes)) =
        rest.findSome?
          (fun nameId =>
            (extract_clipboard_format env nameId.2 (some max)).map
              (fun bytes => Body.Custom nameId.1 bytes))) ∧
    (∀ sizeF, env.size CF_HDROP = some sizeF → max ≤ sizeF →
      extract_files_list env (some max) = none) := by
  have hskip : extract_clipboard_format env id (some max) = none := by
    simp only [extract_clipboard_format, hsize]
    simp [isNoneOr, Nat.not_lt.mpr hover]
  refine ⟨hskip, ?_, ?_⟩
  · intro name rest
    rw [List.findSome?_cons]
    simp [hskip]
  · intro sizeF hF hoverF
    simp only [extract_files_list, hF]
    simp [isNoneOr, Nat.not_lt.mpr hoverF]

/-- Witness for C5 (amended) at a concrete oversized format. -/
theorem c5_ceiling_skip_witness :
    rtfEnvOver.size 77 = some 1000 ∧ (10 : Nat) ≤ 1000 ∧
      extract_clipboard_format rtfEnvOver 77 (some 10) = none :=
  ⟨by decide, by decide, (c5_ceiling_skip rtfEnvOver 77 10 1000 (by decide)
    (by decide)).1⟩

/-- A snapshot exposing only the rich-text format, with an advertised
size exactly equal to the ceiling of 10. -/
def rtfEnvEq : ClipEnv :=
  { emptyEnv with
      size := fun id => if id = 77 then some 10 else none
      getRaw := fun id => if id = 77 then some [72, 105] else none
      utf8Lossy := fun _ => "Hi" }

/-- Counterexample to C10 as stated over every clipboard format: the
rich-text format advertises exactly the ceiling (10 bytes against
ceiling 10), yet the read proceeds — the text fallback never consults
the advertised size — and the Classifier returns `RichText` instead of
treating the format as absent. -/
theorem c10_counterexample :
    rtfObserver.max_bytes = some 10 ∧ rtfEnvEq.size 77 = some 10 ∧
      rtfObserver.get_clipboard_content rtfEnvEq = .ok (.RichText "Hi") ∧
      rtfObserver.get_clipboard_content rtfEnvEq ≠
        .error .UnknownDataType := by
  refine ⟨rfl, by decide, by decide, by decide⟩

/-- C10 amended: for every read that goes through the size checks — the
custom and image formats via `extract_clipboard_format`, the file list,
and the on-disk file considered for image promotion — a payload whose
advertised size equals the ceiling is treated as absent exactly like one
exceeding it, and such a read proceeds only when the advertised size is
strictly below the ceiling. -/
theorem c10_strict_boundary (env : ClipEnv) (id max : Nat) :
    (∀ size, env.size id = some size →
      (extract_clipboard_format env id (some max) ≠ none → size < max) ∧
      (size = max → extract_clipboard_format env id (some max) = none)) ∧
    (∀ sizeF, env.size CF_HDROP = some sizeF → sizeF = max →
      extract_files_list env (some max) = none) ∧
    (∀ (o : WinObserver) (p : FsPath), o.max_bytes = some max →
      env.fsLen p = some max → promotionGuard o.max_bytes env p = false) := by
  refine ⟨?_, ?_, ?_⟩
  · intro size hsize
    constructor
    · intro hread
      by_contra hge
      have hover : max ≤ size := Nat.le_of_not_lt hge
      apply hread
      simp only [extract_clipboard_format, hsize]
      simp [isNoneOr, Nat.not_lt.mpr hover]
    · rintro rfl
      simp only [extract_clipboard_format, hsize]
      simp [isNoneOr]
  · rintro sizeF hF rfl
    simp only [extract_files_list, hF]
    simp [isNoneOr]
  · intro o p hmax hlen
    simp [promotionGuard, hmax, isNoneOr, hlen]

/-- A snapshot whose file-list format advertises exactly 10 bytes. -/
def hdropEnvEq : ClipEnv :=
  { emptyEnv with
      size := fun id => if id = CF_HDROP then some 10 else none
      readFileListOk := true
      fileList := [photoPath] }

/-- Witness for C10 (amended): with ceiling 10 the file-list format of
advertised size exactly 10 is skipped. -/
theorem c10_strict_boundary_witness :
    hdropEnvEq.size CF_HDROP = some 10 ∧
      extract_files_list hdropEnvEq (some 10) = none :=
  ⟨by decide, (c10_strict_boundary hdropEnvEq CF_HDROP 10).2.1 10 (by decide)
    rfl⟩

/-- An observer whose clipboard exposes a registered PNG format. -/
def imgObserver : WinObserver := { emptyObserver with png_format := some 49000 }

/-- A snapshot exposing only a PNG payload of 3 bytes. -/
def imgEnv : ClipEnv :=
  { emptyEnv with
      size := fun id => if id = 49000 then some 3 else none
      getRaw := fun id => if id = 49000 then some [1, 2, 3] else none }

/-- Counterexample to C2 as stated: the `Image` result the Classifier
produces consists of the PNG bytes and the optional path alone — there is
no MIME field on `ClipboardImage` — and the MIME fallback of the crate
(`ImageMimeType::from_name`) resolves an undetermined type to
`Unknown` preserving the original string, not to the generic binary MIME
type. -/
theorem c2_counterexample :
    imgObserver.get_clipboard_content imgEnv =
        .ok (.Image ⟨[1, 2, 3], none⟩) ∧
      ImageMimeType.from_str "video/mp4" = none ∧
      ImageMimeType.from_name "video/mp4" = .Unknown "video/mp4" ∧
      (ImageMimeType.from_name "video/mp4").display ≠
        "application/octet-stream" := by
  refine ⟨by decide, by decide, by decide, by decide⟩

/-- C2 amended: an `Image` result carries exactly the PNG bytes and the
optional path (no MIME field), and the `ImageMimeType` fallback of the crate
for an unrecognized MIME string is `Unknown`, preserving and displaying
the original string rather than a generic binary MIME type. -/
theorem c2_mime_fallback (s : String)
    (h : ImageMimeType.from_str s = none) :
    (ImageMimeType.from_name s = .Unknown s ∧
      (ImageMimeType.from_name s).display = s) ∧
    (∀ i : ClipboardImage, i = ⟨i.bytes, i.path⟩) := by
  refine ⟨⟨?_, ?_⟩, fun i => rfl⟩
  · simp [ImageMimeType.from_name, h]
  · simp [ImageMimeType.from_name, h, ImageMimeType.display]

/-- Witness for C2 (amended) at the unrecognized MIME string its
own test uses. -/
theorem c2_mime_fallback_witness :
    ImageMimeType.from_str "application/pdf" = none ∧
      ImageMimeType.from_name "application/pdf" =
        .Unknown "application/pdf" :=
  ⟨by decide, ((c2_mime_fallback "application/pdf" (by decide)).1).1⟩

/-- Rust `clipboard_win::register_format` outcomes for the two custom names
used in the C3 scenario. -/
def regAB : String → Option Nat := fun name =>
  if name = "Alpha" then some 601
  else if name = "Beta" then some 602
  else none

/-- The observer built from the caller list `["Alpha", "Beta"]` when the
`HashMap` happens to iterate its two entries in the reverse of insertion
order — a legal iteration order for a Rust `HashMap`. -/
def obsReversed : WinObserver :=
  WinObserver.new regAB false none none ["Alpha", "Beta"] List.reverse
    none none

/-- A snapshot on which both registered custom formats are present and
small: "Alpha" (id 601) holds `[7]` and "Beta" (id 602) holds `[9, 9]`. -/
def bothCustomEnv : ClipEnv :=
  { emptyEnv with
      size := fun id => if id = 601 ∨ id = 602 then some 3 else none
      getRaw := fun id =>
        if id = 601 then some [7]
        else if id = 602 then some [9, 9]
        else none }

/-- C3 evaluated at the failing input: the map iteration order is a
permutation of the registration order given by the caller `["Alpha", "Beta"]`, the
first-registered format "Alpha" is present and within the ceiling, yet
the Classifier returns `Custom "Beta"` — whichever entry the `HashMap`
yields first — not the first format in registration order. -/
theorem c3_hash_order_eval :
    obsReversed.custom_formats = [("Beta", 602), ("Alpha", 601)] ∧
      obsReversed.custom_formats.Perm [("Alpha", 601), ("Beta", 602)] ∧
      extract_clipboard_format bothCustomEnv 601 obsReversed.max_bytes =
        some [7] ∧
      obsReversed.get_clipboard_content bothCustomEnv =
        .ok (.Custom "Beta" [9, 9]) ∧
      obsReversed.get_clipboard_content bothCustomEnv ≠
        .ok (.Custom "Alpha" [7]) := by
  refine ⟨by decide, by decide, by decide, by decide, by decide⟩

/-- C6: Driver construction blocks on the one-shot handoff, so its result
is a function of the platform setup outcome reported by the background
thread: on success it returns a live driver (stop flag false, thread
handle held) and the thread goes on to run the Observer; on failure it
returns `InitializationError` carrying the underlying message and the
background thread has already exited without entering the observe
loop. -/
theorem c6_driver_construction (minit : Except String Unit) :
    (∀ u, minit = .ok u →
      driverNew minit = .ok ⟨false, some ()⟩ ∧
        (winThreadBody minit).ranObserver = true) ∧
    (∀ e, minit = .error e →
      driverNew minit = .error (.InitializationError e) ∧
        (winThreadBody minit).ranObserver = false) := by
  constructor
  · rintro u rfl
    exact ⟨rfl, rfl⟩
  · rintro e rfl
    exact ⟨rfl, rfl⟩

/-- Witness for C6 at the two concrete setup outcomes. -/
theorem c6_driver_construction_witness :
    driverNew (.ok ()) = .ok ⟨false, some ()⟩ ∧
      driverNew (.error "boom") = .error (.InitializationError "boom") ∧
      (winThreadBody (.error "boom")).ranObserver = false := by
  refine ⟨((c6_driver_construction (.ok ())).1 () rfl).1, ?_, ?_⟩
  · exact ((c6_driver_construction (.error "boom")).2 "boom" rfl).1
  · exact ((c6_driver_construction (.error "boom")).2 "boom" rfl).2

/-- C7: teardown stores `true` into the stop flag and takes the join
handle (so the join happens exactly once), and once the stop flag is
set every loop iteration exits immediately without broadcasting — over
any sequence of further monitor events not a single result is sent, so
no broadcast can occur after the synchronous join of teardown returns. -/
theorem c7_teardown_no_broadcast :
    (∀ d : DriverModel,
      (driverDrop d).stop = true ∧ (driverDrop d).handle = none) ∧
    (∀ (ev : MonitorEvent) (classify : ClipboardResultM) (st : LoopState),
      observeStep true ev classify st = ⟨.Stopped, []⟩) ∧
    (∀ (evs : List (MonitorEvent × ClipboardResultM)) (st : LoopState),
      (observeRun true evs st).2 = []) := by
  have hstep : ∀ (ev : MonitorEvent) (classify : ClipboardResultM)
      (st : LoopState), observeStep true ev classify st = ⟨.Stopped, []⟩ := by
    intro ev classify st
    cases st <;> rfl
  refine ⟨fun d => ⟨rfl, rfl⟩, hstep, ?_⟩
  intro evs
  induction evs with
  | nil => intro st; rfl
  | cons e rest ih =>
    intro st
    cases e with
    | mk ev classify => simp [observeRun, hstep, ih]

/-- C8: in the observe loop a per-event classification error
(`ReadError`, `UnknownDataType`) is broadcast and the loop keeps
waiting; an unrecoverable monitor failure broadcasts exactly one
`MonitorFailed` and terminates the loop; with the stop flag clear, a
monitor failure is the only event that terminates the loop on its own,
and the terminated loop emits nothing further. -/
theorem c8_loop_error_handling :
    (∀ msg, observeStep false .changed (.error (.ReadError msg)) .Waiting =
      ⟨.Waiting, [.error (.ReadError msg)]⟩) ∧
    (observeStep false .changed (.error .UnknownDataType) .Waiting =
      ⟨.Waiting, [.error .UnknownDataType]⟩) ∧
    (∀ msg classify,
      observeStep false (.fatal msg) classify .Waiting =
        ⟨.Stopped, [.error (.MonitorFailed msg)]⟩) ∧
    (∀ (ev : MonitorEvent) (classify : ClipboardResultM),
      (observeStep false ev classify .Waiting).next = .Stopped ↔
        ∃ msg, ev = .fatal msg) ∧
    (∀ (stopFlag : Bool) (ev : MonitorEvent) (classify : ClipboardResultM),
      observeStep stopFlag ev classify .Stopped = ⟨.Stopped, []⟩) := by
  refine ⟨fun msg => rfl, rfl, fun msg classify => rfl, ?_, fun s ev c => rfl⟩
  intro ev classify
  cases ev with
  | changed => simp [observeStep]
  | noChange => simp [observeStep]
  | fatal msg => simp [observeStep]

/-- An open channel with spare capacity. -/
def openChan : ChanModel := ⟨[], 2, false⟩

/-- A channel already at capacity. -/
def fullChan : ChanModel := ⟨[.ok (.PlainText "x")], 1, false⟩

/-- A channel whose receiving end is gone. -/
def closedChan : ChanModel := ⟨[], 2, true⟩

/-- Three registered subscribers: one live, one full, one closed. -/
def regSample : List (StreamIdM × ChanModel) :=
  [(1, openChan), (2, fullChan), (3, closedChan)]

/-- A sample broadcast payload. -/
def helloResult : ClipboardResultM := .ok (.PlainText "hello")

/-- C9: a broadcast attempts a non-blocking send to every registered
channel in turn; the registration map keeps exactly the same subscriber
ids in the same order, a live channel with spare capacity receives the
result, and a full or closed channel is skipped with its entry left
untouched — so no registration is removed by a failed send and a
failure of one subscriber does not prevent delivery to the others. -/
theorem c9_broadcast_frame (senders : List (StreamIdM × ChanModel))
    (r : ClipboardResultM) :
    ((send_all senders r).map Prod.fst = senders.map Prod.fst) ∧
    ((send_all senders r).length = senders.length) ∧
    (∀ id c, (id, c) ∈ senders → c.closed = false →
      c.queued.length < c.capacity →
      (id, { c with queued := c.queued ++ [r] }) ∈ send_all senders r) ∧
    (∀ id c, (id, c) ∈ senders →
      (c.closed = true ∨ c.capacity ≤ c.queued.length) →
      (id, c) ∈ send_all senders r) := by
  refine ⟨?_, by simp [send_all], ?_, ?_⟩
  · simp only [send_all, List.map_map]
    rfl
  · intro id c hmem hclosed hlt
    have hsend : (trySendChan c r).1 = { c with queued := c.queued ++ [r] } := by
      simp [trySendChan, hclosed, Nat.not_le.mpr hlt]
    have := List.mem_map_of_mem
      (fun entry => (entry.1, (trySendChan entry.2 r).1)) hmem
    simpa [send_all, hsend] using this
  · intro id c hmem hfail
    have hsend : (trySendChan c r).1 = c := by
      rcases hfail with hcl | hle
      · simp [trySendChan, hcl]
      · cases hcl : c.closed <;> simp [trySendChan, hcl, hle]
    have := List.mem_map_of_mem
      (fun entry => (entry.1, (trySendChan entry.2 r).1)) hmem
    simpa [send_all, hsend] using this

/-- Witness for C9 on a three-subscriber registry: the live channel
receives the result, the full and closed channels are skipped, and the
id list is unchanged. -/
theorem c9_broadcast_frame_witness :
    ((send_all regSample helloResult).map Prod.fst =
        regSample.map Prod.fst) ∧
      (1, { openChan with queued := openChan.queued ++ [helloResult] }) ∈
        send_all regSample helloResult ∧
      (2, fullChan) ∈ send_all regSample helloResult ∧
      (3, closedChan) ∈ send_all regSample helloResult := by
  refine ⟨(c9_broadcast_frame regSample helloResult).1, ?_, ?_, ?_⟩
  · exact (c9_broadcast_frame regSample helloResult).2.2.1 1 openChan
      (by decide) rfl (by decide)
  · exact (c9_broadcast_frame regSample helloResult).2.2.2 2 fullChan
      (by decide) (Or.inr (by decide))
  · exact (c9_broadcast_frame regSample helloResult).2.2.2 3 closedChan
      (by decide) (Or.inl rfl)
